import Mathlib

/-
Verification development for the amazon-documentdb-samples remediation
workflow (blogs/awsconfig-docdb).

The source consists of a Step Functions state machine
(lib/constructs/remediation-state-machine-target.ts) and three Lambda
handlers (cluster-parameter-group-remediation/index.js,
cluster-backup-retention-remediation/index.js, and the deletion-protection
handler). The embedding below models one workflow execution: the sequence
of states entered, the sequence of external calls issued (SNS publishes,
DocumentDB describe and modify calls), and the terminal result.
-/

namespace AwsConfigDocDb

/-- A DocumentDB cluster as returned by describeDBClusters: the durable
resource id (DbClusterResourceId) and the current mutable identifier
(DBClusterIdentifier). Only the fields read by the handlers are modelled. -/
structure Cluster where
  dbClusterResourceId : String
  dbClusterIdentifier : String
deriving DecidableEq, Repr

/-- The compliance event detail as consumed by the state machine: the
choice state reads configRuleName, the LambdaInvoke payloads extract
resourceId. resourceId is Option String because the field may be absent
(undefined) in the incoming event. -/
structure ComplianceEvent where
  configRuleName : String
  resourceId : Option String
deriving DecidableEq, Repr

/-- The single-field mutation carried by a modifyDBCluster call:
DBClusterParameterGroupName, BackupRetentionPeriod (the raw env string,
as the handler passes it), or DeletionProtection. -/
inductive ClusterMutation where
  | setParameterGroup (group : String)
  | setBackupRetention (period : String)
  | setDeletionProtection (enabled : Bool)
deriving DecidableEq, Repr

/-- One external call issued during a workflow execution, in order. -/
inductive Call where
  | snsPublishEvent (subject : String) (body : ComplianceEvent)
  | describeDBClusters
  | modifyDBCluster (dbClusterIdentifier : String) (mutation : ClusterMutation)
  | snsPublishMessage (subject : String) (body : String)
deriving DecidableEq, Repr

def Call.isModify : Call → Bool
  | .modifyDBCluster _ _ => true
  | _ => false

def Call.isDescribe : Call → Bool
  | .describeDBClusters => true
  | _ => false

/-- The exit notification of the workflow (Notify remediation result). -/
def Call.isExitNotify : Call → Bool
  | .snsPublishMessage _ _ => true
  | _ => false

/-- The entry notification of the workflow (Notify non-compliance resource). -/
def Call.isEntryNotify : Call → Bool
  | .snsPublishEvent _ _ => true
  | _ => false

/-- A JavaScript Error value: the handlers throw either plain Error
(name Error) or ResourceNotFoundError (a subclass that sets
name to ResourceNotFoundError); the state machine catch clause matches on
the name string. -/
structure JsError where
  name : String
  message : String
deriving DecidableEq, Repr

/-- class ResourceNotFoundError extends Error, with this.name set. -/
def resourceNotFoundError (message : String) : JsError :=
  ⟨"ResourceNotFoundError", message⟩

/-- A plain new Error(message). -/
def jsError (message : String) : JsError :=
  ⟨"Error", message⟩

/-- JavaScript falsiness of a process.env value (string or undefined):
undefined and the empty string are falsy, every other string is truthy. -/
def jsFalsyStr : Option String → Bool
  | none => true
  | some s => s = ""

/-- Rendering of a possibly-undefined value inside a template literal:
undefined prints as the word undefined. -/
def jsShow : Option String → String
  | none => "undefined"
  | some s => s

/-- The environment configuration of the remediation Lambda functions, as
wired by the CDK construct: DESIRED_CLUSTER_PARAMETER_GROUP and
DESIRED_CLUSTER_BACKUP_RETENTION_PERIOD (the latter a stringified number). -/
structure Env where
  desiredClusterParameterGroup : Option String
  desiredClusterBackupRetentionPeriod : Option String
deriving DecidableEq, Repr

/-- getDbClusterIdentifier from the handler sources: awaits
describeDBClusters (recorded in the call list), finds the cluster whose
DbClusterResourceId strictly equals resourceId, and returns its
DBClusterIdentifier; when no cluster matches it throws
ResourceNotFoundError. An undefined resourceId matches no cluster because
the strict comparison with a string field is always false. -/
def getDbClusterIdentifier (world : List Cluster) (resourceId : Option String) :
    Except JsError String × List Call :=
  match world.find? (fun c => some c.dbClusterResourceId == resourceId) with
  | some cluster => (Except.ok cluster.dbClusterIdentifier, [Call.describeDBClusters])
  | none =>
      (Except.error (resourceNotFoundError
        (("Cluster with resourceId=" ++ jsShow resourceId) ++ " not found")),
       [Call.describeDBClusters])

/-- Handler of cluster-parameter-group-remediation/index.js: reads
DESIRED_CLUSTER_PARAMETER_GROUP, throws a plain Error when it is falsy,
otherwise resolves the cluster identifier and issues one modifyDBCluster
call setting DBClusterParameterGroupName. The catch block rethrows every
error unchanged. -/
def parameterGroupHandler (env : Env) (world : List Cluster) (resourceId : Option String) :
    Except JsError Unit × List Call :=
  if jsFalsyStr env.desiredClusterParameterGroup then
    (Except.error (jsError ("Desired cluster parameter group not found")), [])
  else
    match getDbClusterIdentifier world resourceId with
    | (Except.error e, calls) => (Except.error e, calls)
    | (Except.ok dbClusterIdentifier, calls) =>
        (Except.ok (), calls ++ [Call.modifyDBCluster dbClusterIdentifier
          (ClusterMutation.setParameterGroup (env.desiredClusterParameterGroup.getD ""))])

/-- Handler of cluster-backup-retention-remediation/index.js: same shape,
reading DESIRED_CLUSTER_BACKUP_RETENTION_PERIOD and setting
BackupRetentionPeriod. -/
def backupRetentionHandler (env : Env) (world : List Cluster) (resourceId : Option String) :
    Except JsError Unit × List Call :=
  if jsFalsyStr env.desiredClusterBackupRetentionPeriod then
    (Except.error (jsError ("Desired cluster backup retention period not found")), [])
  else
    match getDbClusterIdentifier world resourceId with
    | (Except.error e, calls) => (Except.error e, calls)
    | (Except.ok dbClusterIdentifier, calls) =>
        (Except.ok (), calls ++ [Call.modifyDBCluster dbClusterIdentifier
          (ClusterMutation.setBackupRetention (env.desiredClusterBackupRetentionPeriod.getD ""))])

/-- Handler of cluster-deletion-protection-remediation/index.js: no
environment check; resolves the cluster identifier and issues one
modifyDBCluster call with DeletionProtection true. -/
def deletionProtectionHandler (_env : Env) (world : List Cluster) (resourceId : Option String) :
    Except JsError Unit × List Call :=
  match getDbClusterIdentifier world resourceId with
  | (Except.error e, calls) => (Except.error e, calls)
  | (Except.ok dbClusterIdentifier, calls) =>
      (Except.ok (), calls ++ [Call.modifyDBCluster dbClusterIdentifier
        (ClusterMutation.setDeletionProtection true)])

/-- The three remediation branches of the choice state. -/
inductive RemediationType where
  | parameterGroup
  | backupRetention
  | deletionProtection
deriving DecidableEq, Repr

def handlerFor : RemediationType → Env → List Cluster → Option String →
    Except JsError Unit × List Call
  | .parameterGroup => parameterGroupHandler
  | .backupRetention => backupRetentionHandler
  | .deletionProtection => deletionProtectionHandler

/-- The choice state: string equality of configRuleName against the three
known rule names, in the order the when clauses are declared; no match
falls through to the otherwise branch (none). -/
def classify (configRuleName : String) : Option RemediationType :=
  if configRuleName = "documentdb-cluster-parameter-group" then
    some RemediationType.parameterGroup
  else if configRuleName = "documentdb-cluster-backup-retention" then
    some RemediationType.backupRetention
  else if configRuleName = "documentdb-cluster-deletion-protection-enabled" then
    some RemediationType.deletionProtection
  else
    none

/-- One outcome per workflow execution that reaches the exit
notification, matching the three pass states of the source. -/
inductive Outcome where
  | executed
  | resourceNotFound
  | remediationTypeNotFound
deriving DecidableEq, Repr

/-- The message each pass state deposits (the Result.fromObject payloads). -/
def outcomeMessage : Outcome → String
  | .executed => "The remediation for the non-compliance resource has been executed"
  | .resourceNotFound => "The non-compliance resource was not found"
  | .remediationTypeNotFound => "Remediation type not found"

/-- States of the remediation state machine, named after the source. -/
inductive StateName where
  | notifyNonCompliance
  | remediationChoice
  | parameterGroupState
  | backupRetentionState
  | deletionProtectionState
  | remediationExecuted
  | resourceNotFoundFallback
  | remediationTypeNotFound
  | notifyRemediationResult
deriving DecidableEq, Repr

def stateFor : RemediationType → StateName
  | .parameterGroup => StateName.parameterGroupState
  | .backupRetention => StateName.backupRetentionState
  | .deletionProtection => StateName.deletionProtectionState

/-- The Notify non-compliance resource state: publishes the event detail
(subject fixed, message the detail body) and, because resultPath is
DISCARD and outputPath selects the detail again, passes the event body
forward unchanged. -/
def notifyNonComplianceStep (event : ComplianceEvent) : ComplianceEvent × Call :=
  (event, Call.snsPublishEvent ("A non-compliant event has occurred") event)

/-- The Notify remediation result state: subject and message are both the
message field produced by the pass state that was taken. -/
def notifyResultCall (message : String) : Call :=
  Call.snsPublishMessage message message

instance {ε α : Type} [DecidableEq ε] [DecidableEq α] : DecidableEq (Except ε α)
  | .ok a, .ok b =>
      if h : a = b then isTrue (by rw [h])
      else isFalse (by intro hc; cases hc; exact h rfl)
  | .ok _, .error _ => isFalse (by intro h; cases h)
  | .error _, .ok _ => isFalse (by intro h; cases h)
  | .error e, .error f =>
      if h : e = f then isTrue (by rw [h])
      else isFalse (by intro hc; cases hc; exact h rfl)

/-- Everything observable about one workflow execution: the terminal
result (ok outcome, or the uncaught error that failed the execution), the
external calls in order, and the states entered in order. -/
structure ExecutionLog where
  result : Except JsError Outcome
  calls : List Call
  states : List StateName
deriving DecidableEq, Repr

/-- One execution of the non-compliance-remediation-workflow state
machine on one event: Notify non-compliance, then the choice on
configRuleName; a recognized rule invokes its Lambda handler, whose
ResourceNotFoundError (matched by name, per addCatch) is routed to the
Resource not found error pass state while any other error fails the
execution uncaught; success goes through Remediation executed; an
unrecognized rule goes through Remediation type not found; every pass
state continues to Notify remediation result. -/
def handleComplianceEvent (env : Env) (world : List Cluster) (event : ComplianceEvent) :
    ExecutionLog :=
  let forwarded := (notifyNonComplianceStep event).fst
  let entryCall := (notifyNonComplianceStep event).snd
  match classify forwarded.configRuleName with
  | none =>
      { result := Except.ok Outcome.remediationTypeNotFound
      , calls := [entryCall, notifyResultCall (outcomeMessage Outcome.remediationTypeNotFound)]
      , states := [StateName.notifyNonCompliance, StateName.remediationChoice,
                   StateName.remediationTypeNotFound, StateName.notifyRemediationResult] }
  | some t =>
      match handlerFor t env world forwarded.resourceId with
      | (Except.ok _, handlerCalls) =>
          { result := Except.ok Outcome.executed
          , calls := entryCall :: handlerCalls ++
              [notifyResultCall (outcomeMessage Outcome.executed)]
          , states := [StateName.notifyNonCompliance, StateName.remediationChoice, stateFor t,
                       StateName.remediationExecuted, StateName.notifyRemediationResult] }
      | (Except.error e, handlerCalls) =>
          if e.name = "ResourceNotFoundError" then
            { result := Except.ok Outcome.resourceNotFound
            , calls := entryCall :: handlerCalls ++
                [notifyResultCall (outcomeMessage Outcome.resourceNotFound)]
            , states := [StateName.notifyNonCompliance, StateName.remediationChoice, stateFor t,
                         StateName.resourceNotFoundFallback, StateName.notifyRemediationResult] }
          else
            { result := Except.error e
            , calls := entryCall :: handlerCalls
            , states := [StateName.notifyNonCompliance, StateName.remediationChoice, stateFor t] }

/-- The desired-value configuration a remediation type requires is falsy:
the condition under which its handler throws the configuration Error. -/
def configMissingFor : RemediationType → Env → Bool
  | .parameterGroup, env => jsFalsyStr env.desiredClusterParameterGroup
  | .backupRetention, env => jsFalsyStr env.desiredClusterBackupRetentionPeriod
  | .deletionProtection, _ => false

/-- The configuration Error message each handler throws. -/
def configMissingMessage : RemediationType → String
  | .parameterGroup => "Desired cluster parameter group not found"
  | .backupRetention => "Desired cluster backup retention period not found"
  | .deletionProtection => ""

/-- The mutation a rule applies on success: the desired parameter group,
the desired retention period, or DeletionProtection true. -/
def expectedMutation : RemediationType → Env → ClusterMutation
  | .parameterGroup, env =>
      ClusterMutation.setParameterGroup (env.desiredClusterParameterGroup.getD "")
  | .backupRetention, env =>
      ClusterMutation.setBackupRetention (env.desiredClusterBackupRetentionPeriod.getD "")
  | .deletionProtection, _ => ClusterMutation.setDeletionProtection true

/-- A concrete cluster inventory entry, used to instantiate theorems. -/
def sampleCluster : Cluster := ⟨"db-123", "cluster-1"⟩

/-- A fully configured environment, matching the CDK defaults. -/
def sampleEnv : Env := ⟨some ("blogpost-param-group"), some ("7")⟩

/-- An environment with no desired parameter group configured. -/
def sampleEnvMissingGroup : Env := ⟨none, some ("7")⟩

/-- A deletion-protection compliance event targeting sampleCluster. -/
def sampleEventDeletion : ComplianceEvent :=
  ⟨"documentdb-cluster-deletion-protection-enabled", some ("db-123")⟩

/-- A parameter-group compliance event targeting a missing resource. -/
def sampleEventMissingResource : ComplianceEvent :=
  ⟨"documentdb-cluster-parameter-group", some ("db-999")⟩

/-- An event whose configRuleName matches none of the three rules. -/
def sampleEventUnknownRule : ComplianceEvent :=
  ⟨"documentdb-something-else", some ("db-1")⟩

/-- Exhaustive description of one handler invocation: either the required
configuration is falsy and the handler throws the configuration Error
with no calls made; or the resource is found and the handler succeeds
after one describe and one modify carrying the rule-specific mutation; or
no resource matches and the handler throws ResourceNotFoundError after
the single describe call. -/
theorem handlerFor_spec (t : RemediationType) (env : Env) (world : List Cluster)
    (rid : Option String) :
    (configMissingFor t env = true ∧
      handlerFor t env world rid = (Except.error (jsError (configMissingMessage t)), [])) ∨
    (∃ c, world.find? (fun cl => some cl.dbClusterResourceId == rid) = some c ∧
      configMissingFor t env = false ∧
      handlerFor t env world rid = (Except.ok (), [Call.describeDBClusters,
        Call.modifyDBCluster c.dbClusterIdentifier (expectedMutation t env)])) ∨
    (world.find? (fun cl => some cl.dbClusterResourceId == rid) = none ∧
      configMissingFor t env = false ∧
      handlerFor t env world rid = (Except.error (resourceNotFoundError
        (("Cluster with resourceId=" ++ jsShow rid) ++ " not found")),
        [Call.describeDBClusters])) := by
  cases t
  case parameterGroup =>
    cases hc : jsFalsyStr env.desiredClusterParameterGroup
    · rcases hf : world.find? (fun cl => some cl.dbClusterResourceId == rid) with _ | c
      · exact Or.inr (Or.inr ⟨hf, by simp [configMissingFor, hc],
          by simp [handlerFor, parameterGroupHandler, hc, getDbClusterIdentifier, hf]⟩)
      · exact Or.inr (Or.inl ⟨c, hf, by simp [configMissingFor, hc],
          by simp [handlerFor, parameterGroupHandler, hc, getDbClusterIdentifier, hf,
                   expectedMutation]⟩)
    · exact Or.inl ⟨by simp [configMissingFor, hc],
        by simp [handlerFor, parameterGroupHandler, hc, configMissingMessage]⟩
  case backupRetention =>
    cases hc : jsFalsyStr env.desiredClusterBackupRetentionPeriod
    · rcases hf : world.find? (fun cl => some cl.dbClusterResourceId == rid) with _ | c
      · exact Or.inr (Or.inr ⟨hf, by simp [configMissingFor, hc],
          by simp [handlerFor, backupRetentionHandler, hc, getDbClusterIdentifier, hf]⟩)
      · exact Or.inr (Or.inl ⟨c, hf, by simp [configMissingFor, hc],
          by simp [handlerFor, backupRetentionHandler, hc, getDbClusterIdentifier, hf,
                   expectedMutation]⟩)
    · exact Or.inl ⟨by simp [configMissingFor, hc],
        by simp [handlerFor, backupRetentionHandler, hc, configMissingMessage]⟩
  case deletionProtection =>
    rcases hf : world.find? (fun cl => some cl.dbClusterResourceId == rid) with _ | c
    · exact Or.inr (Or.inr ⟨hf, by simp [configMissingFor],
        by simp [handlerFor, deletionProtectionHandler, getDbClusterIdentifier, hf]⟩)
    · exact Or.inr (Or.inl ⟨c, hf, by simp [configMissingFor],
        by simp [handlerFor, deletionProtectionHandler, getDbClusterIdentifier, hf,
                 expectedMutation]⟩)

/-- Claim C1: for every compliance event whose configRuleName is one of
the three known rule names and whose resourceId matches a listed
resource (with the required desired values configured), handling the
event applies exactly the mutation matching that rule (parameter-group
assignment, backup-retention period, or DeletionProtection true) exactly
once and produces the Executed outcome. -/
theorem recognizedRule_existingResource_executesMutationOnce
    (env : Env) (world : List Cluster) (event : ComplianceEvent) (t : RemediationType)
    (c : Cluster)
    (hrule : classify event.configRuleName = some t)
    (hconf : configMissingFor t env = false)
    (hfound : world.find? (fun cl => some cl.dbClusterResourceId == event.resourceId) = some c) :
    (handleComplianceEvent env world event).result = Except.ok Outcome.executed ∧
    (handleComplianceEvent env world event).calls.countP Call.isModify = 1 ∧
    Call.modifyDBCluster c.dbClusterIdentifier (expectedMutation t env) ∈
      (handleComplianceEvent env world event).calls := by
  rcases handlerFor_spec t env world event.resourceId with
    ⟨hm, _⟩ | ⟨c2, hf2, _, hh⟩ | ⟨hf2, _, _⟩
  · rw [hconf] at hm; cases hm
  · rw [hfound] at hf2
    cases hf2
    refine ⟨?_, ?_, ?_⟩ <;>
      simp [handleComplianceEvent, notifyNonComplianceStep, hrule, hh,
            List.countP_cons, List.countP_nil, Call.isModify, notifyResultCall]
  · rw [hfound] at hf2; cases hf2

/-- Witness for C1 at the deletion-protection rule on sampleCluster. -/
theorem recognizedRule_existingResource_executesMutationOnce_witness :
    classify sampleEventDeletion.configRuleName = some RemediationType.deletionProtection ∧
    configMissingFor RemediationType.deletionProtection sampleEnv = false ∧
    [sampleCluster].find?
      (fun cl => some cl.dbClusterResourceId == sampleEventDeletion.resourceId) =
        some sampleCluster ∧
    (handleComplianceEvent sampleEnv [sampleCluster] sampleEventDeletion).result =
      Except.ok Outcome.executed :=
  ⟨by decide, by decide, by decide,
   (recognizedRule_existingResource_executesMutationOnce sampleEnv [sampleCluster]
      sampleEventDeletion RemediationType.deletionProtection sampleCluster
      (by decide) (by decide) (by decide)).1⟩

/-- Claim C2: for every event routed to a remediation action whose
resourceId matches none of the listed resources (with the required
desired values configured), the outcome is the ResourceNotFound fallback
message and no modifyDBCluster mutation call is ever issued. -/
theorem unmatchedResource_notFoundOutcome_noMutation
    (env : Env) (world : List Cluster) (event : ComplianceEvent) (t : RemediationType)
    (hrule : classify event.configRuleName = some t)
    (hconf : configMissingFor t env = false)
    (hnone : world.find? (fun cl => some cl.dbClusterResourceId == event.resourceId) = none) :
    (handleComplianceEvent env world event).result = Except.ok Outcome.resourceNotFound ∧
    (handleComplianceEvent env world event).calls.countP Call.isModify = 0 ∧
    notifyResultCall (outcomeMessage Outcome.resourceNotFound) ∈
      (handleComplianceEvent env world event).calls := by
  rcases handlerFor_spec t env world event.resourceId with
    ⟨hm, _⟩ | ⟨c2, hf2, _, _⟩ | ⟨_, _, hh⟩
  · rw [hconf] at hm; cases hm
  · rw [hnone] at hf2; cases hf2
  · refine ⟨?_, ?_, ?_⟩ <;>
      simp [handleComplianceEvent, notifyNonComplianceStep, hrule, hh,
            resourceNotFoundError, List.countP_cons, List.countP_nil,
            Call.isModify, notifyResultCall]

/-- Witness for C2 at the parameter-group rule with an empty inventory. -/
theorem unmatchedResource_notFoundOutcome_noMutation_witness :
    classify sampleEventMissingResource.configRuleName = some RemediationType.parameterGroup ∧
    configMissingFor RemediationType.parameterGroup sampleEnv = false ∧
    ([] : List Cluster).find?
      (fun cl => some cl.dbClusterResourceId == sampleEventMissingResource.resourceId) = none ∧
    (handleComplianceEvent sampleEnv [] sampleEventMissingResource).result =
      Except.ok Outcome.resourceNotFound :=
  ⟨by decide, by decide, by decide,
   (unmatchedResource_notFoundOutcome_noMutation sampleEnv []
      sampleEventMissingResource RemediationType.parameterGroup
      (by decide) (by decide) (by decide)).1⟩

/-- Claim C3: for every event whose configRuleName matches none of the
three known rule names, the outcome is the Remediation type not found
branch, the execution terminates successfully (an ok result, not an
error), and neither a describeDBClusters resolver call nor a
modifyDBCluster mutation call is made. -/
theorem unrecognizedRule_typeNotFound_noCalls
    (env : Env) (world : List Cluster) (event : ComplianceEvent)
    (hrule : classify event.configRuleName = none) :
    (handleComplianceEvent env world event).result =
      Except.ok Outcome.remediationTypeNotFound ∧
    (handleComplianceEvent env world event).calls.countP Call.isDescribe = 0 ∧
    (handleComplianceEvent env world event).calls.countP Call.isModify = 0 ∧
    notifyResultCall (outcomeMessage Outcome.remediationTypeNotFound) ∈
      (handleComplianceEvent env world event).calls := by
  refine ⟨?_, ?_, ?_, ?_⟩ <;>
    simp [handleComplianceEvent, notifyNonComplianceStep, hrule,
          List.countP_cons, List.countP_nil, Call.isDescribe, Call.isModify,
          notifyResultCall]

/-- Witness for C3 at an unmapped rule name. -/
theorem unrecognizedRule_typeNotFound_noCalls_witness :
    classify sampleEventUnknownRule.configRuleName = none ∧
    (handleComplianceEvent sampleEnv [sampleCluster] sampleEventUnknownRule).result =
      Except.ok Outcome.remediationTypeNotFound :=
  ⟨by decide,
   (unrecognizedRule_typeNotFound_noCalls sampleEnv [sampleCluster]
      sampleEventUnknownRule (by decide)).1⟩

/-- Claim C4: for the parameter-group and backup-retention remediation
actions, if the required desired value is absent (falsy), the action
fails with the configuration Error before any mutation call is
attempted; that error is distinct from every ResourceNotFoundError, is
not caught by the workflow, and the execution terminates as a failure.
The hypothesis configMissingFor t env = true can only hold for the
parameter-group and backup-retention actions. -/
theorem missingConfig_failsFatally_beforeMutation
    (env : Env) (world : List Cluster) (event : ComplianceEvent) (t : RemediationType)
    (hrule : classify event.configRuleName = some t)
    (hmiss : configMissingFor t env = true) :
    handlerFor t env world event.resourceId =
      (Except.error (jsError (configMissingMessage t)), []) ∧
    (∀ m, jsError (configMissingMessage t) ≠ resourceNotFoundError m) ∧
    (handleComplianceEvent env world event).result =
      Except.error (jsError (configMissingMessage t)) ∧
    (handleComplianceEvent env world event).calls.countP Call.isModify = 0 := by
  rcases handlerFor_spec t env world event.resourceId with
    ⟨_, hh⟩ | ⟨c2, _, hc, _⟩ | ⟨_, hc, _⟩
  · refine ⟨hh, ?_, ?_, ?_⟩
    · intro m hcontra
      simpa [jsError, resourceNotFoundError] using congrArg JsError.name hcontra
    · simp [handleComplianceEvent, notifyNonComplianceStep, hrule, hh, jsError]
    · simp [handleComplianceEvent, notifyNonComplianceStep, hrule, hh, jsError,
            List.countP_cons, List.countP_nil, Call.isModify]
  · rw [hmiss] at hc; cases hc
  · rw [hmiss] at hc; cases hc

/-- Witness for C4 at the parameter-group rule with the desired group
unset. -/
theorem missingConfig_failsFatally_beforeMutation_witness :
    classify sampleEventMissingResource.configRuleName = some RemediationType.parameterGroup ∧
    configMissingFor RemediationType.parameterGroup sampleEnvMissingGroup = true ∧
    (handleComplianceEvent sampleEnvMissingGroup [sampleCluster]
        sampleEventMissingResource).result =
      Except.error (jsError (configMissingMessage RemediationType.parameterGroup)) :=
  ⟨by decide, by decide,
   (missingConfig_failsFatally_beforeMutation sampleEnvMissingGroup [sampleCluster]
      sampleEventMissingResource RemediationType.parameterGroup
      (by decide) (by decide)).2.2.1⟩

/-- Claim C5: a ResourceNotFoundError raised inside a remediation action
is propagated by the handler unchanged; the workflow catches it (by
name), routes it through the Resource not found error fallback and then
the exit notification, and the execution does not surface it as a
failure; every other error raised by a handler is not caught and becomes
a workflow execution failure. -/
theorem resourceNotFound_caught_othersPropagate
    (env : Env) (world : List Cluster) (event : ComplianceEvent) (t : RemediationType)
    (hrule : classify event.configRuleName = some t) :
    (configMissingFor t env = false →
      ∀ e, (getDbClusterIdentifier world event.resourceId).fst = Except.error e →
        (handlerFor t env world event.resourceId).fst = Except.error e) ∧
    (∀ e, (handlerFor t env world event.resourceId).fst = Except.error e →
      e.name = "ResourceNotFoundError" →
        (handleComplianceEvent env world event).result = Except.ok Outcome.resourceNotFound ∧
        (handleComplianceEvent env world event).states =
          [StateName.notifyNonCompliance, StateName.remediationChoice, stateFor t,
           StateName.resourceNotFoundFallback, StateName.notifyRemediationResult] ∧
        notifyResultCall (outcomeMessage Outcome.resourceNotFound) ∈
          (handleComplianceEvent env world event).calls) ∧
    (∀ e, (handlerFor t env world event.resourceId).fst = Except.error e →
      e.name ≠ "ResourceNotFoundError" →
        (handleComplianceEvent env world event).result = Except.error e) := by
  refine ⟨?_, ?_, ?_⟩
  · intro hconf e he
    rcases handlerFor_spec t env world event.resourceId with
      ⟨hm, _⟩ | ⟨c2, hf2, _, hh⟩ | ⟨hf2, _, hh⟩
    · rw [hconf] at hm; cases hm
    · rw [getDbClusterIdentifier, hf2] at he; cases he
    · rw [getDbClusterIdentifier, hf2] at he
      cases he
      rw [hh]
  · intro e he hname
    rcases handlerFor_spec t env world event.resourceId with
      ⟨_, hh⟩ | ⟨c2, _, _, hh⟩ | ⟨_, _, hh⟩
    · rw [hh] at he
      cases he
      simp [jsError] at hname
    · rw [hh] at he; cases he
    · rw [hh] at he
      cases he
      refine ⟨?_, ?_, ?_⟩ <;>
        simp [handleComplianceEvent, notifyNonComplianceStep, hrule, hh,
              resourceNotFoundError, notifyResultCall]
  · intro e he hname
    rcases handlerFor_spec t env world event.resourceId with
      ⟨_, hh⟩ | ⟨c2, _, _, hh⟩ | ⟨_, _, hh⟩
    · rw [hh] at he
      cases he
      simp [handleComplianceEvent, notifyNonComplianceStep, hrule, hh, jsError]
    · rw [hh] at he; cases he
    · rw [hh] at he
      cases he
      simp [resourceNotFoundError] at hname

/-- Witness for C5: an empty inventory raises ResourceNotFoundError,
which is caught and routed to the fallback. -/
theorem resourceNotFound_caught_othersPropagate_witness :
    classify sampleEventMissingResource.configRuleName = some RemediationType.parameterGroup ∧
    (handlerFor RemediationType.parameterGroup sampleEnv [] sampleEventMissingResource.resourceId).fst =
      Except.error (resourceNotFoundError ("Cluster with resourceId=db-999 not found")) ∧
    (handleComplianceEvent sampleEnv [] sampleEventMissingResource).result =
      Except.ok Outcome.resourceNotFound :=
  ⟨by decide, by decide,
   ((resourceNotFound_caught_othersPropagate sampleEnv [] sampleEventMissingResource
      RemediationType.parameterGroup (by decide)).2.1
      (resourceNotFoundError ("Cluster with resourceId=db-999 not found"))
      (by decide) (by decide)).1⟩

/-- Claim C6: every execution that terminates successfully sends the
exit notification exactly once, with subject and body both carrying the
outcome message of the branch actually taken; an execution that fails
with an uncaught error sends no exit notification. -/
theorem exitNotification_exactlyOnce_matchesOutcome
    (env : Env) (world : List Cluster) (event : ComplianceEvent) :
    (∀ o, (handleComplianceEvent env world event).result = Except.ok o →
      (handleComplianceEvent env world event).calls.countP Call.isExitNotify = 1 ∧
      notifyResultCall (outcomeMessage o) ∈ (handleComplianceEvent env world event).calls) ∧
    (∀ e, (handleComplianceEvent env world event).result = Except.error e →
      (handleComplianceEvent env world event).calls.countP Call.isExitNotify = 0) := by
  rcases hr : classify event.configRuleName with _ | t
  · constructor
    · intro o ho
      rw [handleComplianceEvent] at ho
      simp [notifyNonComplianceStep, hr] at ho
      subst ho
      refine ⟨?_, ?_⟩ <;>
        simp [handleComplianceEvent, notifyNonComplianceStep, hr,
              List.countP_cons, List.countP_nil, Call.isExitNotify, notifyResultCall]
    · intro e he
      rw [handleComplianceEvent] at he
      simp [notifyNonComplianceStep, hr] at he
  · rcases handlerFor_spec t env world event.resourceId with
      ⟨_, hh⟩ | ⟨c2, _, _, hh⟩ | ⟨_, _, hh⟩
    · constructor
      · intro o ho
        rw [handleComplianceEvent] at ho
        simp [notifyNonComplianceStep, hr, hh, jsError] at ho
      · intro e he
        simp [handleComplianceEvent, notifyNonComplianceStep, hr, hh, jsError,
              List.countP_cons, List.countP_nil, Call.isExitNotify, Call.isEntryNotify]
    · constructor
      · intro o ho
        rw [handleComplianceEvent] at ho
        simp [notifyNonComplianceStep, hr, hh] at ho
        subst ho
        refine ⟨?_, ?_⟩ <;>
          simp [handleComplianceEvent, notifyNonComplianceStep, hr, hh,
                List.countP_cons, List.countP_nil, Call.isExitNotify, notifyResultCall]
      · intro e he
        rw [handleComplianceEvent] at he
        simp [notifyNonComplianceStep, hr, hh] at he
    · constructor
      · intro o ho
        rw [handleComplianceEvent] at ho
        simp [notifyNonComplianceStep, hr, hh, resourceNotFoundError] at ho
        subst ho
        refine ⟨?_, ?_⟩ <;>
          simp [handleComplianceEvent, notifyNonComplianceStep, hr, hh,
                resourceNotFoundError, List.countP_cons, List.countP_nil,
                Call.isExitNotify, notifyResultCall]
      · intro e he
        rw [handleComplianceEvent] at he
        simp [notifyNonComplianceStep, hr, hh, resourceNotFoundError] at he

/-- Witness for C6 on a successful deletion-protection execution. -/
theorem exitNotification_exactlyOnce_matchesOutcome_witness :
    (handleComplianceEvent sampleEnv [sampleCluster] sampleEventDeletion).result =
      Except.ok Outcome.executed ∧
    (handleComplianceEvent sampleEnv [sampleCluster]
        sampleEventDeletion).calls.countP Call.isExitNotify = 1 :=
  ⟨by decide,
   ((exitNotification_exactlyOnce_matchesOutcome sampleEnv [sampleCluster]
      sampleEventDeletion).1 Outcome.executed (by decide)).1⟩

/-- Claim C7: in every execution the entry notification is the first
step (the first external call and the first state), before
classification (the choice state, always the second state); the exit
notification never occurs among those first two steps, so classification
precedes it; and the entry-notification step passes the event body
forward unchanged to classification. -/
theorem entryNotification_first_classifyBeforeExit
    (env : Env) (world : List Cluster) (event : ComplianceEvent) :
    (notifyNonComplianceStep event).fst = event ∧
    (handleComplianceEvent env world event).states.take 2 =
      [StateName.notifyNonCompliance, StateName.remediationChoice] ∧
    (handleComplianceEvent env world event).calls.head? =
      some (Call.snsPublishEvent ("A non-compliant event has occurred") event) ∧
    ((handleComplianceEvent env world event).states.take 2).contains
      StateName.notifyRemediationResult = false := by
  rcases hr : classify event.configRuleName with _ | t
  · refine ⟨rfl, ?_, ?_, ?_⟩ <;>
      simp [handleComplianceEvent, notifyNonComplianceStep, hr]
  · rcases handlerFor_spec t env world event.resourceId with
      ⟨_, hh⟩ | ⟨c2, _, _, hh⟩ | ⟨_, _, hh⟩ <;>
      refine ⟨rfl, ?_, ?_, ?_⟩ <;>
        simp [handleComplianceEvent, notifyNonComplianceStep, hr, hh,
              jsError, resourceNotFoundError]

/-- Claim C8: an absent resourceId matches no listed cluster, and for
every resourceId that matches no cluster the handler (with its required
configuration present, so that the resolution code is reached) fails
with ResourceNotFoundError and issues no mutation call; no other error
kind arises from resolution. -/
theorem absentOrUnmatchedResourceId_resourceNotFound
    (env : Env) (world : List Cluster) (rid : Option String) (t : RemediationType)
    (hconf : configMissingFor t env = false)
    (hnone : world.find? (fun cl => some cl.dbClusterResourceId == rid) = none) :
    (handlerFor t env world rid).fst =
      Except.error (resourceNotFoundError
        (("Cluster with resourceId=" ++ jsShow rid) ++ " not found")) ∧
    (handlerFor t env world rid).snd.countP Call.isModify = 0 ∧
    (∀ ws : List Cluster,
      ws.find? (fun cl => some cl.dbClusterResourceId == (none : Option String)) = none) := by
  rcases handlerFor_spec t env world rid with
    ⟨hm, _⟩ | ⟨c2, hf2, _, _⟩ | ⟨_, _, hh⟩
  · rw [hconf] at hm; cases hm
  · rw [hnone] at hf2; cases hf2
  · refine ⟨by rw [hh], by rw [hh]; rfl, ?_⟩
    intro ws
    induction ws with
    | nil => rfl
    | cons c tl ih => simp [List.find?_cons, ih]

/-- Witness for C8: the deletion-protection handler on an absent
resourceId over a non-empty inventory. -/
theorem absentOrUnmatchedResourceId_resourceNotFound_witness :
    configMissingFor RemediationType.deletionProtection sampleEnv = false ∧
    [sampleCluster].find?
      (fun cl => some cl.dbClusterResourceId == (none : Option String)) = none ∧
    (handlerFor RemediationType.deletionProtection sampleEnv [sampleCluster] none).fst =
      Except.error (resourceNotFoundError ("Cluster with resourceId=undefined not found")) :=
  ⟨by decide, by decide,
   by
     have h := (absentOrUnmatchedResourceId_resourceNotFound sampleEnv [sampleCluster]
       none RemediationType.deletionProtection (by decide) (by decide)).1
     simpa [jsShow] using h⟩

/-- Claim C9: in the parameter-group and backup-retention handlers the
configuration-presence check comes before resource resolution: when the
desired value is missing the handler makes no external call at all,
neither the describeDBClusters resolver query nor the modifyDBCluster
mutation. -/
theorem configCheck_precedesResolution
    (env : Env) (world : List Cluster) (rid : Option String) (t : RemediationType)
    (hmiss : configMissingFor t env = true) :
    (handlerFor t env world rid).snd = [] ∧
    (handlerFor t env world rid).snd.countP Call.isDescribe = 0 ∧
    (handlerFor t env world rid).snd.countP Call.isModify = 0 := by
  rcases handlerFor_spec t env world rid with
    ⟨_, hh⟩ | ⟨c2, _, hc, _⟩ | ⟨_, hc, _⟩
  · exact ⟨by rw [hh], by rw [hh]; rfl, by rw [hh]; rfl⟩
  · rw [hmiss] at hc; cases hc
  · rw [hmiss] at hc; cases hc

/-- Witness for C9: the parameter-group handler with no desired group
configured issues no call. -/
theorem configCheck_precedesResolution_witness :
    configMissingFor RemediationType.parameterGroup sampleEnvMissingGroup = true ∧
    (handlerFor RemediationType.parameterGroup sampleEnvMissingGroup [sampleCluster]
      (some ("db-123"))).snd = [] :=
  ⟨by decide,
   (configCheck_precedesResolution sampleEnvMissingGroup [sampleCluster]
      (some ("db-123")) RemediationType.parameterGroup (by decide)).1⟩

/-- Claim C10: the configuration-presence checks test JavaScript
falsiness, so an empty-string desired value behaves exactly like an
absent one: for every inventory and every input, the parameter-group and
backup-retention handlers produce the same result and calls for an
empty-string desired value as for an unset one, namely the fatal
configuration Error. -/
theorem emptyStringConfig_sameAsAbsent
    (world : List Cluster) (rid : Option String) (other : Option String) :
    parameterGroupHandler ⟨some (""), other⟩ world rid =
      parameterGroupHandler ⟨none, other⟩ world rid ∧
    (parameterGroupHandler ⟨some (""), other⟩ world rid).fst =
      Except.error (jsError ("Desired cluster parameter group not found")) ∧
    backupRetentionHandler ⟨other, some ("")⟩ world rid =
      backupRetentionHandler ⟨other, none⟩ world rid ∧
    (backupRetentionHandler ⟨other, some ("")⟩ world rid).fst =
      Except.error (jsError ("Desired cluster backup retention period not found")) := by
  refine ⟨?_, ?_, ?_, ?_⟩ <;>
    simp [parameterGroupHandler, backupRetentionHandler, jsFalsyStr]

end AwsConfigDocDb
